import Mathlib

/-!
Verification of the AnimeDB-Helper core against its design document.

The embedding below follows `resources/lib/library.py`, `resources/lib/api.py`
and `resources/lib/sync.py`.  Python dicts keyed by strings are modelled as
association lists with Python's update-in-place/append-on-new semantics;
`int(time.time())` reads are passed in explicitly as `now` arguments; file
persistence (`_save_library` / `_save_watch_history`) is out of scope, so the
state-mutating operations return the updated in-memory documents.

An important feature of `library.py` is that the class `AnimeLibrary` defines
`get_anime_status`, `mark_episode_watched` and `get_episode_progress` twice
each; in Python the later definition in the class body silently replaces the
earlier one, so the embedding models the LATER definitions (the effective
methods) and the theorems note where the shadowed earlier definitions differ.
-/

namespace AnimeDB

/-- Result of evaluating a Python expression: a value, or a raised exception
(identified by its class name). -/
inductive PyResult (α : Type) where
  | ok (val : α)
  | exn (exnName : String)
  deriving DecidableEq

/-! ## Python dict primitives (string-keyed association lists) -/

/-- `d.get(k)` / `d[k]`: the value at the first occurrence of key `k`. -/
def dictGet {α : Type} : List (String × α) → String → Option α
  | [], _ => none
  | p :: rest, k => if p.1 = k then some p.2 else dictGet rest k

/-- `k in d`. -/
def dictMember {α : Type} : List (String × α) → String → Bool
  | [], _ => false
  | p :: rest, k => if p.1 = k then true else dictMember rest k

/-- Replace the value stored under `k` (used when `k` is already present). -/
def dictReplace {α : Type} : List (String × α) → String → α → List (String × α)
  | [], _, _ => []
  | p :: rest, k, v => (if p.1 = k then (k, v) else p) :: dictReplace rest k v

/-- `d[k] = v` on a Python dict: updates in place when the key is present
(insertion order preserved), appends otherwise. -/
def dictSet {α : Type} (m : List (String × α)) (k : String) (v : α) :
    List (String × α) :=
  if dictMember m k then dictReplace m k v else m ++ [(k, v)]

/-- All pairs whose key differs from `k` (used to state frame conditions). -/
def dictErase {α : Type} : List (String × α) → String → List (String × α)
  | [], _ => []
  | p :: rest, k => if p.1 = k then dictErase rest k else p :: dictErase rest k

/-- Number of pairs stored under key `k`. -/
def countKey {α : Type} : List (String × α) → String → Nat
  | [], _ => 0
  | p :: rest, k => (if p.1 = k then 1 else 0) + countKey rest k

/-! ## Data model -/

/-- One entry of `self.library['anime']` in `library.py`.  The keys
`watched_episodes` and `episode_progress` are only ever added by the shadowed
(dead) methods, so a dict may lack them; they are modelled as `Option` fields,
`none` meaning the key is absent.  `episode_progress` maps an episode number
(`str(episode)` in the source) to a fractional completion value. -/
structure LibEntry where
  id : String
  source : String
  status : String
  progress : Nat
  total_episodes : Nat
  score : Nat
  rewatch_count : Nat
  notes : String
  added_at : Nat
  updated_at : Nat
  watched_episodes : Option (List Nat) := none
  episode_progress : Option (List (Nat × Rat)) := none
  deriving DecidableEq

/-- The wrapper document `self.library` (created by `_load_library`): a dict
with the three top-level keys `version`, `anime` and `last_updated`. -/
structure Library where
  version : Nat
  anime : List (String × LibEntry)
  last_updated : Nat
  deriving DecidableEq

/-- One append-only entry of `self.watch_history['history']`.  The effective
`mark_episode_watched` writes both a `watched_at` and a `timestamp` key. -/
structure WatchEvent where
  anime_id : String
  source : String
  episode : Nat
  watched_at : Nat
  timestamp : Nat
  deriving DecidableEq

/-- In-memory state of an `AnimeLibrary` object: the library document plus the
`history` list of the watch-history document. -/
structure LibState where
  library : Library
  history : List WatchEvent
  deriving DecidableEq

/-- `anime_key = f"{source}_{anime_id}"`. -/
def animeKey (source anime_id : String) : String := source ++ "_" ++ anime_id

/-! ## Library Store operations (library.py) -/

/-- `AnimeLibrary.add_to_library` (library.py lines 101-132): upsert of a
library entry.  On create, `added_at` and `updated_at` are both set to `now`
and the dict has no `watched_episodes` / `episode_progress` keys; on update,
exactly the seven keys listed in the `.update({...})` call are overwritten. -/
def add_to_library (lib : Library) (anime_id source status : String)
    (progress total_episodes score rewatch_count : Nat) (notes : String)
    (now : Nat) : Library :=
  let key := animeKey source anime_id
  match dictGet lib.anime key with
  | none =>
      let fresh : LibEntry :=
        { id := anime_id
          source := source
          status := status
          progress := progress
          total_episodes := total_episodes
          score := score
          rewatch_count := rewatch_count
          notes := notes
          added_at := now
          updated_at := now }
      { lib with anime := dictSet lib.anime key fresh }
  | some entry =>
      let updated : LibEntry :=
        { entry with
          status := status
          progress := progress
          total_episodes := total_episodes
          score := score
          rewatch_count := rewatch_count
          notes := notes
          updated_at := now }
      { lib with anime := dictSet lib.anime key updated }

/-- The per-entry effect of the effective `mark_episode_watched` (library.py
lines 569-580) on an existing entry: `progress = max(episode, progress)`,
`total_episodes = total_episodes or old`, `updated_at = now`, then the status
auto-update (`progress >= total_episodes > 0` promotes to COMPLETED, otherwise
PLANNING promotes to WATCHING). -/
def markEntry (entry : LibEntry) (episode total_episodes now : Nat) : LibEntry :=
  let prog := max episode entry.progress
  let tot := if total_episodes ≠ 0 then total_episodes else entry.total_episodes
  { entry with
    progress := prog
    total_episodes := tot
    updated_at := now
    status :=
      if tot ≤ prog ∧ 0 < tot then "COMPLETED"
      else if entry.status = "PLANNING" then "WATCHING"
      else entry.status }

/-- Effective `AnimeLibrary.mark_episode_watched` (library.py lines 543-582,
the second definition of that name, which shadows the earlier one at lines
435-480).  It unconditionally appends one watch-history event, then updates
the library entry only when the key is already present; unlike the shadowed
definition it never touches `watched_episodes` or `episode_progress` and it
never creates an entry. -/
def mark_episode_watched (st : LibState) (anime_id source : String)
    (episode total_episodes now : Nat) : LibState :=
  let key := animeKey source anime_id
  let ev : WatchEvent :=
    { anime_id := anime_id
      source := source
      episode := episode
      watched_at := now
      timestamp := now }
  let hist := st.history ++ [ev]
  match dictGet st.library.anime key with
  | none => { st with history := hist }
  | some entry =>
      let updated := markEntry entry episode total_episodes now
      { library := { st.library with anime := dictSet st.library.anime key updated },
        history := hist }

/-- Keys iterated by `for anime in self.library` in the effective
`get_anime_status` (library.py line 526): iterating a Python dict yields its
top-level KEYS, here the three strings of the wrapper document. -/
def libraryIterKeys (_lib : Library) : List String :=
  ["version", "anime", "last_updated"]

/-- `anime.get('id')` where `anime` is a `str`: Python `str` has no attribute
`get`, so the attribute lookup raises AttributeError. -/
def strAttrGet (_s _k : String) : PyResult String := .exn "AttributeError"

/-- The `for anime in self.library` loop body of the effective
`get_anime_status`: the first operation on each iterated element is
`anime.get('id')`, which raises because the element is a string, so the
id/source comparison of the loop body is never reached. -/
def getAnimeStatusLoop : List String → PyResult (Option LibEntry)
  | [] => .ok none
  | s :: rest =>
      match strAttrGet s "id" with
      | .exn e => .exn e
      | .ok _ => getAnimeStatusLoop rest

/-- Effective `AnimeLibrary.get_anime_status` (library.py lines 514-541, the
second definition of that name, which shadows the dict-lookup version at lines
152-155).  The `try` block iterates `self.library` (the wrapper dict, not
`self.library['anime']`), the loop body raises AttributeError on the first
key, and the `except Exception` handler returns `None`. -/
def get_anime_status (lib : Library) (_anime_id _source : String) :
    Option LibEntry :=
  match getAnimeStatusLoop (libraryIterKeys lib) with
  | .ok r => r
  | .exn _ => none

/-- Effective `AnimeLibrary.get_episode_progress` (library.py lines 584-612,
the second definition of that name, which shadows the per-episode float
version at lines 482-512).  It takes NO episode argument and returns a dict
mapping each episode number in `1..total_episodes` to a boolean watched flag
derived purely from the watch-history log. -/
def get_episode_progress (st : LibState) (anime_id source : String) :
    List (Nat × Bool) :=
  let watched := (st.history.filter
      (fun e => decide (e.anime_id = anime_id ∧ e.source = source))).map
      (fun e => e.episode)
  let key := animeKey source anime_id
  let total0 := ((dictGet st.library.anime key).map
      (fun e => e.total_episodes)).getD 0
  let total := if total0 = 0 ∧ watched ≠ [] then watched.foldr max 0 else total0
  (List.range total).map (fun i => (i + 1, decide ((i + 1) ∈ watched)))

/-- A sequence of `mark_episode_watched` calls on one `(anime_id, source)`
pair, every call passing the same `total_episodes` and timestamp. -/
def markSeq (st : LibState) (anime_id source : String) (eps : List Nat)
    (total_episodes now : Nat) : LibState :=
  eps.foldl (fun s e => mark_episode_watched s anime_id source e total_episodes now) st

/-- Iterated `markEntry` over a list of episode numbers. -/
def entryFold (e : LibEntry) (eps : List Nat) (total_episodes now : Nat) : LibEntry :=
  eps.foldl (fun acc ep => markEntry acc ep total_episodes now) e

/-- The successive entry states after each call of a `markSeq` run. -/
def entryTrace (e : LibEntry) (eps : List Nat) (total_episodes now : Nat) :
    List LibEntry :=
  match eps with
  | [] => []
  | ep :: rest =>
      let e1 := markEntry e ep total_episodes now
      e1 :: entryTrace e1 rest total_episodes now

/-! ## Remote Service Client: `AnimeDBAPI._anilist_query` (api.py lines 407-538)

The loop is embedded with an explicit fuel parameter (the real loop can spin
on HTTP 429 without incrementing `attempt`, so it is not structurally
recursive).  Each HTTP round trip is one call of the `responses` oracle,
indexed by how many requests have been issued so far; the trace records, per
request, whether the Authorization header was attached. -/

/-- What one `requests.post` round trip delivers back: the HTTP status code,
whether `response.json()` parses, and whether the parsed body contains a
top-level `errors` key. -/
structure AnilistResponse where
  status : Nat
  jsonOk : Bool
  hasErrors : Bool
  deriving DecidableEq

/-- How a `_anilist_query` call ends: a parsed result (`return result`),
`return None`, an exception escaping to the caller, or fuel exhaustion of the
embedding (never reached in the theorems below). -/
inductive QueryOutcome where
  | success
  | returnedNone
  | raised (exnName : String)
  | outOfFuel
  deriving DecidableEq

/-- Final outcome plus, for each HTTP request issued, whether it carried an
Authorization header. -/
structure QueryTrace where
  outcome : QueryOutcome
  requests : List Bool
  deriving DecidableEq

/-- The `while attempt <= max_retries` loop of `_anilist_query`.  Branches, in
source order:
429 → sleep and `continue` (attempt unchanged);
401 on attempt 0 with a successful token refresh → re-auth, `attempt += 1`,
`continue` (a failed refresh falls through to the JSON-parse branch, since
401 is excluded from both the 4xx raise and the 5xx raise);
other 4xx → `response.raise_for_status()` raises an HTTPError carrying the
4xx response, which the `RequestException` handler meets with `break`, so the
function falls out of the loop and returns `None`;
5xx → `raise requests.HTTPError(f'Server error: ...')` constructs the error
WITHOUT a response object, so in the handler `e.response` is `None` and
evaluating `e.response.status_code` raises an AttributeError that no handler
of this `try` catches — it escapes to the caller;
then `result = response.json()` (a parse failure is a ValueError, met with
`break` → `return None`); a body with `errors` pops the Authorization header,
increments `attempt` and continues while `attempt <= max_retries`, else the
loop returns `None`; otherwise `return result`. -/
def anilistLoop (responses : Nat → AnilistResponse) (refreshOk newTokenOk : Bool)
    (maxRetries : Nat) : Nat → Nat → Bool → List Bool → QueryTrace
  | 0, _, _, reqs => { outcome := .outOfFuel, requests := reqs }
  | fuel + 1, attempt, auth, reqs =>
      if maxRetries < attempt then { outcome := .returnedNone, requests := reqs }
      else
        let r := responses reqs.length
        let reqs1 := reqs ++ [auth]
        if r.status = 429 then
          anilistLoop responses refreshOk newTokenOk maxRetries fuel attempt auth reqs1
        else if r.status = 401 ∧ attempt = 0 ∧ refreshOk ∧ newTokenOk then
          anilistLoop responses refreshOk newTokenOk maxRetries fuel (attempt + 1) true reqs1
        else if 400 ≤ r.status ∧ r.status < 500 ∧ r.status ≠ 401 ∧ r.status ≠ 429 then
          { outcome := .returnedNone, requests := reqs1 }
        else if 500 ≤ r.status then
          { outcome := .raised "AttributeError", requests := reqs1 }
        else if ¬ r.jsonOk then
          { outcome := .returnedNone, requests := reqs1 }
        else if r.hasErrors then
          if maxRetries < attempt + 1 then { outcome := .returnedNone, requests := reqs1 }
          else anilistLoop responses refreshOk newTokenOk maxRetries fuel (attempt + 1) false reqs1
        else { outcome := .success, requests := reqs1 }

/-- `AnimeDBAPI._anilist_query`: sets the Authorization header iff a token is
stored, then enters the retry loop with `attempt = 0`.  The source default is
`max_retries=3`. -/
def anilistQuery (responses : Nat → AnilistResponse)
    (tokenPresent refreshOk newTokenOk : Bool) (maxRetries fuel : Nat) :
    QueryTrace :=
  anilistLoop responses refreshOk newTokenOk maxRetries fuel 0 tokenPresent []

/-- An HTTP client that answers every attempt with status 500. -/
def always500 : Nat → AnilistResponse :=
  fun _ => { status := 500, jsonOk := true, hasErrors := false }

/-- An HTTP client that answers every attempt with 200 and a well-formed body
containing a top-level `errors` array. -/
def always200Errors : Nat → AnilistResponse :=
  fun _ => { status := 200, jsonOk := true, hasErrors := true }

/-! ## Synchronization Engine (sync.py) -/

/-- The addon settings read by `sync_all` (sync.py lines 86-117). -/
structure SyncSettings where
  anilist_enabled : Bool
  mal_enabled : Bool
  trakt_enabled : Bool
  sync_watchlist : Bool
  sync_history : Bool
  sync_ratings_setting : Bool
  deriving DecidableEq

/-- The `enabled_services` list built at sync.py lines 86-92, in source
order. -/
def enabledServices (s : SyncSettings) : List String :=
  (if s.anilist_enabled then ["anilist"] else []) ++
  (if s.mal_enabled then ["mal"] else []) ++
  (if s.trakt_enabled then ["trakt"] else [])

/-- `total_steps` as counted at sync.py lines 108-114. -/
def totalSteps (s : SyncSettings) : Nat :=
  (if s.sync_watchlist then 1 else 0) +
  (if s.sync_history then 1 else 0) +
  (if s.sync_ratings_setting then 1 else 0)

/-- A service name recognised by the dispatch in `sync_watchlists`
(sync.py lines 218-225); any other name hits the `else: continue`. -/
def knownService (s : String) : Bool :=
  s = "anilist" ∨ s = "mal" ∨ s = "trakt"

/-- Core of `sync_watchlists` (sync.py lines 207-257): walks the service list
(`i` is the running service index used by the fetch oracle).  A recognised
service first fetches its remote watchlist — `fetchOk i = false` models that
call raising, which the per-service handler catches, recording an error and
visiting no items — and then the inner loop processes every local item once,
incrementing `items_processed` each time (with no progress dialog the loop
body cannot raise).  Returns the aggregate `synced_items` count and the trace
of `(service, local item index)` visits. -/
def syncWatchlistsGo (nLocal : Nat) (fetchOk : Nat → Bool) :
    List String → Nat → Nat × List (String × Nat)
  | [], _ => (0, [])
  | s :: rest, i =>
      let acc := syncWatchlistsGo nLocal fetchOk rest (i + 1)
      if knownService s ∧ fetchOk i then
        (nLocal + acc.1, ((List.range nLocal).map (fun j => (s, j))) ++ acc.2)
      else acc

/-- Result record of `sync_watchlists`, restricted to the fields the claims
are about, plus the visit trace. -/
structure WatchlistSyncResult where
  total_items : Nat
  synced_items : Nat
  visits : List (String × Nat)
  deriving DecidableEq

/-- `sync_watchlists(services)` (sync.py lines 172-264) over a local watchlist
of `nLocal` items: `results['total_items'] = len(local_watchlist)`, then the
per-service walk. -/
def sync_watchlists (services : List String) (nLocal : Nat)
    (fetchOk : Nat → Bool) : WatchlistSyncResult :=
  let run := syncWatchlistsGo nLocal fetchOk services 0
  { total_items := nLocal, synced_items := run.1, visits := run.2 }

/-- How a `sync_all` run ends (sync.py lines 100-170): the two early-error
returns, the `SyncCancelled` handler's `{"cancelled": True, ...}` record
(tagged with the stage whose boundary check raised), or a normal result. -/
inductive SyncAllResult where
  | errorNoServices
  | errorNoOps
  | cancelled (stage : String)
  | ok
  deriving DecidableEq

/-- Remote watchlist fetches issued by one `sync_watchlists` call: one
`api.<service>_watchlist()` call per recognised service. -/
def remoteFetchCount (services : List String) : Nat :=
  (services.filter knownService).length

/-- `sync_all(progress_callback, cancel_flag)` (sync.py lines 68-170) with the
cancel flag modelled as a constant boolean (the claim concerns a flag already
set before the run).  Stages run in watchlist → history → ratings order; each
enabled stage first checks `is_cancelled()` and raises `SyncCancelled`, which
the top-level handler turns into the cancelled record.  The second component
counts remote-service calls issued: the watchlist stage issues one fetch per
recognised enabled service, while the history and ratings stages are local
placeholders issuing none. -/
def sync_all (s : SyncSettings) (cancelFlag : Bool) : SyncAllResult × Nat :=
  if enabledServices s = [] then (.errorNoServices, 0)
  else if totalSteps s = 0 then (.errorNoOps, 0)
  else if s.sync_watchlist ∧ cancelFlag then (.cancelled "watchlist", 0)
  else
    let wlCalls := if s.sync_watchlist then remoteFetchCount (enabledServices s) else 0
    if s.sync_history ∧ cancelFlag then (.cancelled "history", wlCalls)
    else if s.sync_ratings_setting ∧ cancelFlag then (.cancelled "ratings", wlCalls)
    else (.ok, wlCalls)

/-- The non-`updated_at` fields of an entry, bundled for field-equality
statements (everything except the mutation timestamp). -/
def entryData (e : LibEntry) :
    String × String × String × Nat × Nat × Nat × Nat × String × Nat ×
      Option (List Nat) × Option (List (Nat × Rat)) :=
  (e.id, e.source, e.status, e.progress, e.total_episodes, e.score,
   e.rewatch_count, e.notes, e.added_at, e.watched_episodes, e.episode_progress)

/-- Two back-to-back `add_to_library` calls with identical arguments, at times
`t1` and `t2`; the pair holds the library after the first and after the
second call. -/
def addToLibraryTwice (lib : Library) (anime_id source status : String)
    (progress total_episodes score rewatch_count : Nat) (notes : String)
    (t1 t2 : Nat) : Library × Library :=
  let lib1 := add_to_library lib anime_id source status progress total_episodes
    score rewatch_count notes t1
  (lib1, add_to_library lib1 anime_id source status progress total_episodes
    score rewatch_count notes t2)

/-! ## Concrete states used by the claim theorems -/

/-- A freshly initialised `AnimeLibrary` state: empty `anime` map, empty
history (the `_load_library` / `_load_watch_history` defaults). -/
def freshState : LibState :=
  { library := { version := 1, anime := [], last_updated := 0 }
    history := [] }

/-- A library entry for AniList anime "1", three episodes watched partway. -/
def c2Entry : LibEntry :=
  { id := "1"
    source := "anilist"
    status := "WATCHING"
    progress := 3
    total_episodes := 12
    score := 0
    rewatch_count := 0
    notes := ""
    added_at := 5
    updated_at := 5 }

/-- A library document that visibly contains `c2Entry` under its key. -/
def c2Library : Library :=
  { version := 1
    anime := [(animeKey "anilist" "1", c2Entry)]
    last_updated := 0 }

/-- An entry carrying both optional dict keys: episode 1 fully watched, a 0.4
fraction stored for episode 3 in `episode_progress`. -/
def c3Entry : LibEntry :=
  { id := "1"
    source := "anilist"
    status := "WATCHING"
    progress := 1
    total_episodes := 3
    score := 0
    rewatch_count := 0
    notes := ""
    added_at := 5
    updated_at := 5
    watched_episodes := some [1]
    episode_progress := some [(3, (2 : Rat) / 5)] }

/-- State holding `c3Entry` plus the matching history event for episode 1. -/
def c3State : LibState :=
  { library :=
      { version := 1
        anime := [(animeKey "anilist" "1", c3Entry)]
        last_updated := 0 }
    history :=
      [{ anime_id := "1"
         source := "anilist"
         episode := 1
         watched_at := 5
         timestamp := 5 }] }

/-- An unfinished entry: nothing watched yet, 12 episodes total. -/
def c6Entry : LibEntry :=
  { id := "9"
    source := "anilist"
    status := "WATCHING"
    progress := 0
    total_episodes := 12
    score := 0
    rewatch_count := 0
    notes := ""
    added_at := 0
    updated_at := 0 }

/-- State holding `c6Entry` and an empty watch history. -/
def c6Start : LibState :=
  { library :=
      { version := 1
        anime := [(animeKey "anilist" "9", c6Entry)]
        last_updated := 0 }
    history := [] }

/-- Settings with AniList enabled and only the watchlist stage switched on. -/
def c9Settings : SyncSettings :=
  { anilist_enabled := true
    mal_enabled := false
    trakt_enabled := false
    sync_watchlist := true
    sync_history := false
    sync_ratings_setting := false }

/-! ## Dictionary lemmas -/

theorem dictMember_of_dictGet_some {α : Type} {m : List (String × α)} {k : String}
    {v : α} (h : dictGet m k = some v) : dictMember m k = true := by
  induction m with
  | nil => simp [dictGet] at h
  | cons p rest ih =>
      by_cases hp : p.1 = k
      · simp [dictMember, hp]
      · simp only [dictGet, hp, if_false] at h
        simp only [dictMember, hp, if_false]
        exact ih h

theorem dictMember_of_dictGet_none {α : Type} {m : List (String × α)} {k : String}
    (h : dictGet m k = none) : dictMember m k = false := by
  induction m with
  | nil => simp [dictMember]
  | cons p rest ih =>
      by_cases hp : p.1 = k
      · simp [dictGet, hp] at h
      · simp only [dictGet, hp, if_false] at h
        simp only [dictMember, hp, if_false]
        exact ih h

theorem dictGet_dictReplace_self {α : Type} {m : List (String × α)} {k : String}
    (v : α) (h : dictMember m k = true) :
    dictGet (dictReplace m k v) k = some v := by
  induction m with
  | nil => simp [dictMember] at h
  | cons p rest ih =>
      by_cases hp : p.1 = k
      · simp [dictReplace, dictGet, hp]
      · simp only [dictMember, hp, if_false] at h
        simp only [dictReplace, hp, if_false, dictGet]
        exact ih h

theorem dictGet_append_single_self {α : Type} {m : List (String × α)} {k : String}
    (v : α) (h : dictMember m k = false) :
    dictGet (m ++ [(k, v)]) k = some v := by
  induction m with
  | nil => simp [dictGet]
  | cons p rest ih =>
      by_cases hp : p.1 = k
      · simp [dictMember, hp] at h
      · simp only [dictMember, hp, if_false] at h
        simp only [List.cons_append, dictGet, hp, if_false]
        exact ih h

/-- After `d[k] = v`, looking up `k` yields `v` (Python dict semantics). -/
theorem dictGet_dictSet {α : Type} (m : List (String × α)) (k : String) (v : α) :
    dictGet (dictSet m k v) k = some v := by
  unfold dictSet
  by_cases h : dictMember m k = true
  · rw [if_pos h]; exact dictGet_dictReplace_self v h
  · have h' : dictMember m k = false := by revert h; cases dictMember m k <;> simp
    rw [h', if_neg (by simp)]
    exact dictGet_append_single_self v h'

theorem dictErase_dictReplace {α : Type} (m : List (String × α)) (k : String)
    (v : α) : dictErase (dictReplace m k v) k = dictErase m k := by
  induction m with
  | nil => rfl
  | cons p rest ih =>
      by_cases hp : p.1 = k
      · simp [dictReplace, dictErase, hp, ih]
      · simp [dictReplace, dictErase, hp, ih]

theorem dictErase_append_single {α : Type} (m : List (String × α)) (k : String)
    (v : α) : dictErase (m ++ [(k, v)]) k = dictErase m k := by
  induction m with
  | nil => simp [dictErase]
  | cons p rest ih =>
      by_cases hp : p.1 = k
      · simp [dictErase, hp, ih]
      · simp [dictErase, hp, ih]

/-- `d[k] = v` leaves every pair stored under a different key untouched. -/
theorem dictErase_dictSet {α : Type} (m : List (String × α)) (k : String)
    (v : α) : dictErase (dictSet m k v) k = dictErase m k := by
  unfold dictSet
  by_cases h : dictMember m k
  · rw [if_pos h]; exact dictErase_dictReplace m k v
  · rw [if_neg h]; exact dictErase_append_single m k v

theorem countKey_dictReplace {α : Type} (m : List (String × α)) (k : String)
    (v : α) : countKey (dictReplace m k v) k = countKey m k := by
  induction m with
  | nil => rfl
  | cons p rest ih =>
      by_cases hp : p.1 = k
      · simp [dictReplace, countKey, hp, ih]
      · simp [dictReplace, countKey, hp, ih]

theorem countKey_append_single {α : Type} (m : List (String × α)) (k : String)
    (v : α) : countKey (m ++ [(k, v)]) k = countKey m k + 1 := by
  induction m with
  | nil => simp [countKey]
  | cons p rest ih =>
      by_cases hp : p.1 = k
      · simp [countKey, hp, ih]; omega
      · simp [countKey, hp, ih]

theorem countKey_eq_zero_of_not_member {α : Type} {m : List (String × α)}
    {k : String} (h : dictMember m k = false) : countKey m k = 0 := by
  induction m with
  | nil => rfl
  | cons p rest ih =>
      by_cases hp : p.1 = k
      · simp [dictMember, hp] at h
      · simp only [dictMember, hp, if_false] at h
        simp [countKey, hp, ih h]

theorem countKey_dictSet_of_member {α : Type} {m : List (String × α)}
    {k : String} (v : α) (h : dictMember m k = true) :
    countKey (dictSet m k v) k = countKey m k := by
  unfold dictSet
  rw [if_pos h]
  exact countKey_dictReplace m k v

theorem countKey_dictSet_of_not_member {α : Type} {m : List (String × α)}
    {k : String} (v : α) (h : dictMember m k = false) :
    countKey (dictSet m k v) k = countKey m k + 1 := by
  unfold dictSet
  rw [if_neg (by simp [h])]
  exact countKey_append_single m k v

theorem one_le_countKey_of_member {α : Type} {m : List (String × α)}
    {k : String} (h : dictMember m k = true) : 1 ≤ countKey m k := by
  induction m with
  | nil => simp [dictMember] at h
  | cons p rest ih =>
      by_cases hp : p.1 = k
      · simp [countKey, hp]
      · simp only [dictMember, hp, if_false] at h
        simp only [countKey, hp, if_false]
        have := ih h
        omega

/-! ## Claim theorems -/

/-- C1: the spec says `mark_episode_watched(id="1", source="anilist",
episode=12, total_episodes=12)` on a fresh state creates the library entry
with `progress=100`, `status=COMPLETED`, `watched_episodes={12}` and appends
one history event.  Evaluating the effective code at exactly that input: the
single history event IS appended, but no library entry is created at all (the
effective definition only updates entries that already exist, and the
shadowed definition that did maintain `watched_episodes` is dead code). -/
theorem C1_fresh_mark_watched_appends_history_but_creates_no_entry :
    (mark_episode_watched freshState "1" "anilist" 12 12 100).library.anime = [] ∧
    (mark_episode_watched freshState "1" "anilist" 12 12 100).history =
      [{ anime_id := "1"
         source := "anilist"
         episode := 12
         watched_at := 100
         timestamp := 100 }] := by
  exact ⟨rfl, rfl⟩

/-- C2: the spec says `get_status(id, source)` returns the stored entry when
present.  Evaluating the effective `get_anime_status` on a library that
visibly stores the entry for `(anilist, "1")`: the lookup still returns
`None`, because the effective definition iterates the keys of the wrapper
document (`'version'`, `'anime'`, `'last_updated'`), the loop body raises
AttributeError on the first of them, and the handler swallows it. -/
theorem C2_get_anime_status_returns_none_even_when_entry_present :
    dictGet c2Library.anime (animeKey "anilist" "1") = some c2Entry ∧
    get_anime_status c2Library "1" "anilist" = none := by
  exact ⟨rfl, rfl⟩

/-- C3: the spec says `get_episode_progress(id, source, episode)` returns a
float in [0,1]: 1.0 for watched episodes, else the stored fraction.  The
effective definition has no episode parameter at all (a three-argument call
raises TypeError) and returns a history-derived boolean map: on a state whose
entry stores the fraction 0.4 for episode 3 and lists episode 1 in
`watched_episodes`, it answers `{1: True, 2: False, 3: False}` — episode 3's
stored fraction and even the entry's `watched_episodes` key are ignored. -/
theorem C3_get_episode_progress_is_boolean_map_ignoring_fractions :
    get_episode_progress c3State "1" "anilist" =
      [(1, true), (2, false), (3, false)] ∧
    c3Entry.episode_progress = some [(3, (2 : Rat) / 5)] := by
  exact ⟨rfl, rfl⟩

/-- C4: the spec says that with every attempt answered by HTTP 500 and
`max_retries=3` the client makes at most 4 attempts and then returns a null
result, never letting an exception escape.  Evaluating the embedded
`_anilist_query` against a client that always answers 500: the 5xx branch
raises an HTTPError built without a response object, the
`RequestException` handler then dereferences `e.response.status_code` on
`None`, and the resulting AttributeError escapes after a single attempt. -/
theorem C4_http500_escapes_attribute_error_after_one_attempt :
    anilistQuery always500 true false false 3 10 =
      { outcome := .raised "AttributeError", requests := [true] } := by
  rfl

/-- C5 counterexample: the spec says that on a 200 response whose body has a
top-level `errors` array, the client strips the Authorization header and
retries exactly once more anonymously before giving up — i.e. two requests in
total.  With every response carrying `errors` and the default
`max_retries=3`, the code actually issues four requests (one authenticated,
then three anonymous) before returning `None`. -/
theorem C5_counterexample_four_requests_not_two :
    anilistQuery always200Errors true false false 3 10 =
      { outcome := .returnedNone, requests := [true, false, false, false] } := by
  rfl

/-- C6 counterexample: the spec says status transitions to COMPLETED exactly
at the call after which the number of watched episodes equals
`total_episodes`.  One single `mark_episode_watched(episode=12)` call on an
entry with `total_episodes=12` and nothing watched: only one episode was ever
watched (the history holds exactly one event, for episode 12), yet the status
is already COMPLETED, because the effective code promotes on
`progress = max(episode, progress) >= total_episodes`, not on the count of
watched episodes. -/
theorem C6_counterexample_completed_after_single_episode :
    ((dictGet (mark_episode_watched c6Start "9" "anilist" 12 12 50).library.anime
        (animeKey "anilist" "9")).map (fun e => e.status)) = some "COMPLETED" ∧
    (mark_episode_watched c6Start "9" "anilist" 12 12 50).history.map
        (fun e => e.episode) = [12] ∧
    ((dictGet (mark_episode_watched c6Start "9" "anilist" 12 12 50).library.anime
        (animeKey "anilist" "9")).map (fun e => e.total_episodes)) = some 12 := by
  exact ⟨rfl, rfl, rfl⟩

/-- C10: when `add_to_library` hits an existing entry, the entry at the key
afterwards is the old entry with exactly `status`, `progress`,
`total_episodes`, `score`, `rewatch_count`, `notes` and `updated_at`
replaced — in particular `id`, `source`, `added_at`, `watched_episodes` and
`episode_progress` are preserved — and every pair stored under any other key
is left unchanged. -/
theorem C10_add_to_library_update_frame
    (lib : Library) (anime_id source status : String)
    (progress total_episodes score rewatch_count : Nat) (notes : String)
    (now : Nat) (e₀ : LibEntry)
    (h : dictGet lib.anime (animeKey source anime_id) = some e₀) :
    dictGet (add_to_library lib anime_id source status progress total_episodes
        score rewatch_count notes now).anime (animeKey source anime_id) =
      some { e₀ with
             status := status
             progress := progress
             total_episodes := total_episodes
             score := score
             rewatch_count := rewatch_count
             notes := notes
             updated_at := now } ∧
    dictErase (add_to_library lib anime_id source status progress total_episodes
        score rewatch_count notes now).anime (animeKey source anime_id) =
      dictErase lib.anime (animeKey source anime_id) := by
  simp only [add_to_library, h]
  exact ⟨dictGet_dictSet _ _ _, dictErase_dictSet _ _ _⟩

/-- Witness for C10 at a concrete input: `c2Library` stores `c2Entry` under
the key for `(anilist, "1")`, and the update frame condition holds there. -/
theorem C10_add_to_library_update_frame_witness :
    dictGet c2Library.anime (animeKey "anilist" "1") = some c2Entry ∧
    (dictGet (add_to_library c2Library "1" "anilist" "COMPLETED" 12 12 9 1
        "great" 77).anime (animeKey "anilist" "1") =
      some { c2Entry with
             status := "COMPLETED"
             progress := 12
             total_episodes := 12
             score := 9
             rewatch_count := 1
             notes := "great"
             updated_at := 77 } ∧
    dictErase (add_to_library c2Library "1" "anilist" "COMPLETED" 12 12 9 1
        "great" 77).anime (animeKey "anilist" "1") =
      dictErase c2Library.anime (animeKey "anilist" "1")) :=
  ⟨rfl, C10_add_to_library_update_frame c2Library "1" "anilist" "COMPLETED"
    12 12 9 1 "great" 77 c2Entry rfl⟩

/-- C7: after two back-to-back `add_to_library` calls with identical
arguments, exactly one entry sits under the key; every field other than
`updated_at` is the same after the second call as after the first (the
`entryData` tuple is unchanged), and `updated_at` is `t1` after the first
call and `t2` after the second, with `t1 ≤ t2` (monotone clock). -/
theorem C7_add_to_library_twice_idempotent
    (lib : Library) (anime_id source status : String)
    (progress total_episodes score rewatch_count : Nat) (notes : String)
    (t1 t2 : Nat) (ht : t1 ≤ t2)
    (hcount : countKey lib.anime (animeKey source anime_id) ≤ 1) :
    countKey (addToLibraryTwice lib anime_id source status progress
        total_episodes score rewatch_count notes t1 t2).2.anime
      (animeKey source anime_id) = 1 ∧
    (dictGet (addToLibraryTwice lib anime_id source status progress
        total_episodes score rewatch_count notes t1 t2).2.anime
      (animeKey source anime_id)).map entryData =
      (dictGet (addToLibraryTwice lib anime_id source status progress
        total_episodes score rewatch_count notes t1 t2).1.anime
        (animeKey source anime_id)).map entryData ∧
    (dictGet (addToLibraryTwice lib anime_id source status progress
        total_episodes score rewatch_count notes t1 t2).1.anime
      (animeKey source anime_id)).map (fun e => e.updated_at) = some t1 ∧
    (dictGet (addToLibraryTwice lib anime_id source status progress
        total_episodes score rewatch_count notes t1 t2).2.anime
      (animeKey source anime_id)).map (fun e => e.updated_at) = some t2 ∧
    ((dictGet (addToLibraryTwice lib anime_id source status progress
        total_episodes score rewatch_count notes t1 t2).1.anime
      (animeKey source anime_id)).map (fun e => e.updated_at)).getD 0 ≤
      ((dictGet (addToLibraryTwice lib anime_id source status progress
        total_episodes score rewatch_count notes t1 t2).2.anime
        (animeKey source anime_id)).map (fun e => e.updated_at)).getD 0 := by
  cases h : dictGet lib.anime (animeKey source anime_id) with
  | none =>
      have hm : dictMember lib.anime (animeKey source anime_id) = false :=
        dictMember_of_dictGet_none h
      have hc0 : countKey lib.anime (animeKey source anime_id) = 0 :=
        countKey_eq_zero_of_not_member hm
      simp only [addToLibraryTwice, add_to_library, h, dictGet_dictSet]
      refine ⟨?_, ?_, ?_, ?_, ?_⟩
      · rw [countKey_dictSet_of_member _
          (dictMember_of_dictGet_some (dictGet_dictSet lib.anime _ _)),
          countKey_dictSet_of_not_member _ hm, hc0]
      · simp [dictGet_dictSet, entryData]
      · simp [dictGet_dictSet]
      · simp [dictGet_dictSet]
      · simpa using ht
  | some e₀ =>
      have hm : dictMember lib.anime (animeKey source anime_id) = true :=
        dictMember_of_dictGet_some h
      have hc1 : countKey lib.anime (animeKey source anime_id) = 1 :=
        Nat.le_antisymm hcount (one_le_countKey_of_member hm)
      simp only [addToLibraryTwice, add_to_library, h, dictGet_dictSet]
      refine ⟨?_, ?_, ?_, ?_, ?_⟩
      · rw [countKey_dictSet_of_member _
          (dictMember_of_dictGet_some (dictGet_dictSet lib.anime _ _)),
          countKey_dictSet_of_member _ hm, hc1]
      · simp [dictGet_dictSet, entryData]
      · simp [dictGet_dictSet]
      · simp [dictGet_dictSet]
      · simpa using ht

/-- Witness for C7 at a concrete input: upserting AniList anime "7" twice
into the fresh empty library at times 10 and 20. -/
theorem C7_add_to_library_twice_idempotent_witness :
    (10 : Nat) ≤ 20 ∧
    countKey freshState.library.anime (animeKey "anilist" "7") ≤ 1 ∧
    (countKey (addToLibraryTwice freshState.library "7" "anilist" "PLANNING"
        0 24 0 0 "" 10 20).2.anime (animeKey "anilist" "7") = 1 ∧
    (dictGet (addToLibraryTwice freshState.library "7" "anilist" "PLANNING"
        0 24 0 0 "" 10 20).2.anime (animeKey "anilist" "7")).map entryData =
      (dictGet (addToLibraryTwice freshState.library "7" "anilist" "PLANNING"
        0 24 0 0 "" 10 20).1.anime (animeKey "anilist" "7")).map entryData ∧
    (dictGet (addToLibraryTwice freshState.library "7" "anilist" "PLANNING"
        0 24 0 0 "" 10 20).1.anime (animeKey "anilist" "7")).map
        (fun e => e.updated_at) = some 10 ∧
    (dictGet (addToLibraryTwice freshState.library "7" "anilist" "PLANNING"
        0 24 0 0 "" 10 20).2.anime (animeKey "anilist" "7")).map
        (fun e => e.updated_at) = some 20 ∧
    ((dictGet (addToLibraryTwice freshState.library "7" "anilist" "PLANNING"
        0 24 0 0 "" 10 20).1.anime (animeKey "anilist" "7")).map
        (fun e => e.updated_at)).getD 0 ≤
      ((dictGet (addToLibraryTwice freshState.library "7" "anilist" "PLANNING"
        0 24 0 0 "" 10 20).2.anime (animeKey "anilist" "7")).map
        (fun e => e.updated_at)).getD 0) :=
  ⟨by decide, by decide,
    C7_add_to_library_twice_idempotent freshState.library "7" "anilist"
      "PLANNING" 0 24 0 0 "" 10 20 (by decide) (by decide)⟩

/-- The aggregate `synced_items` count of a watchlist-sync run never exceeds
the local item count times the number of services walked. -/
theorem syncWatchlistsGo_count_le (nLocal : Nat) (fetchOk : Nat → Bool) :
    ∀ (services : List String) (i : Nat),
      (syncWatchlistsGo nLocal fetchOk services i).1 ≤ nLocal * services.length := by
  intro services
  induction services with
  | nil => intro i; simp [syncWatchlistsGo]
  | cons s rest ih =>
      intro i
      simp only [syncWatchlistsGo]
      by_cases hc : knownService s ∧ fetchOk i
      · rw [if_pos hc]
        have := ih (i + 1)
        simp only [List.length_cons, Nat.mul_succ]
        omega
      · rw [if_neg hc]
        have := ih (i + 1)
        simp only [List.length_cons, Nat.mul_succ]
        omega

/-- Every visit recorded by a watchlist-sync run names one of the walked
services. -/
theorem visits_mem_services (nLocal : Nat) (fetchOk : Nat → Bool) :
    ∀ (services : List String) (i : Nat) (p : String × Nat),
      p ∈ (syncWatchlistsGo nLocal fetchOk services i).2 → p.1 ∈ services := by
  intro services
  induction services with
  | nil => intro i p hp; simp [syncWatchlistsGo] at hp
  | cons s rest ih =>
      intro i p hp
      simp only [syncWatchlistsGo] at hp
      by_cases hc : knownService s ∧ fetchOk i
      · rw [if_pos hc] at hp
        rcases List.mem_append.mp hp with h1 | h2
        · obtain ⟨j, _, hj⟩ := List.mem_map.mp h1
          rw [← hj]
          exact List.mem_cons_self s rest
        · exact List.mem_cons_of_mem s (ih (i + 1) p h2)
      · rw [if_neg hc] at hp
        exact List.mem_cons_of_mem s (ih (i + 1) p hp)

/-- When the walked service list has no duplicates, no `(service, item)` pair
is visited twice in one watchlist-sync run. -/
theorem syncWatchlistsGo_visits_nodup (nLocal : Nat) (fetchOk : Nat → Bool) :
    ∀ (services : List String) (i : Nat), services.Nodup →
      (syncWatchlistsGo nLocal fetchOk services i).2.Nodup := by
  intro services
  induction services with
  | nil => intro i _; simp [syncWatchlistsGo]
  | cons s rest ih =>
      intro i hnd
      obtain ⟨hs, hrest⟩ := List.nodup_cons.mp hnd
      simp only [syncWatchlistsGo]
      by_cases hc : knownService s ∧ fetchOk i
      · rw [if_pos hc]
        refine List.Nodup.append ?_ (ih (i + 1) hrest) ?_
        · refine List.Nodup.map ?_ (List.nodup_range nLocal)
          intro a b hab
          exact (Prod.mk.injEq s a s b).mp hab |>.2
        · intro p hp hp'
          obtain ⟨j, _, hj⟩ := List.mem_map.mp hp
          have h1 : p.1 = s := by rw [← hj]
          have h2 : p.1 ∈ rest := visits_mem_services nLocal fetchOk rest (i + 1) p hp'
          rw [h1] at h2
          exact hs h2
      · rw [if_neg hc]
        exact ih (i + 1) hrest

/-- C8: in one `sync_watchlists` run over a duplicate-free list of enabled
services and a local watchlist of `nLocal` items, no `(service, local item)`
pair is processed more than once (the visit trace has no duplicates), and the
returned `synced_items` never exceeds `total_items * len(services)`. -/
theorem C8_sync_watchlists_visit_once_and_count_bound
    (services : List String) (nLocal : Nat) (fetchOk : Nat → Bool)
    (hnd : services.Nodup) :
    (sync_watchlists services nLocal fetchOk).visits.Nodup ∧
    (sync_watchlists services nLocal fetchOk).synced_items ≤
      (sync_watchlists services nLocal fetchOk).total_items * services.length := by
  constructor
  · exact syncWatchlistsGo_visits_nodup nLocal fetchOk services 0 hnd
  · exact syncWatchlistsGo_count_le nLocal fetchOk services 0

/-- Witness for C8 at a concrete input: three pairwise-distinct services (one
of them unrecognised) over a two-item local watchlist, the MAL fetch
failing. -/
theorem C8_sync_watchlists_witness :
    (["anilist", "mal", "bogus"] : List String).Nodup ∧
    ((sync_watchlists ["anilist", "mal", "bogus"] 2 (fun i => i ≠ 1)).visits.Nodup ∧
    (sync_watchlists ["anilist", "mal", "bogus"] 2 (fun i => i ≠ 1)).synced_items ≤
      (sync_watchlists ["anilist", "mal", "bogus"] 2 (fun i => i ≠ 1)).total_items *
        (["anilist", "mal", "bogus"] : List String).length) :=
  ⟨by decide,
    C8_sync_watchlists_visit_once_and_count_bound ["anilist", "mal", "bogus"] 2
      (fun i => i ≠ 1) (by decide)⟩

/-- C9: a `sync_all` run whose cancel flag is already set when the (enabled)
watchlist stage is reached, with at least one service enabled, returns the
cancelled record raised at the watchlist boundary and issues zero
remote-service calls. -/
theorem C9_sync_all_cancelled_before_watchlist_zero_calls
    (s : SyncSettings) (hw : s.sync_watchlist = true)
    (hs : enabledServices s ≠ []) :
    sync_all s true = (.cancelled "watchlist", 0) := by
  unfold sync_all
  rw [if_neg hs]
  have h2 : ¬ (totalSteps s = 0) := by
    unfold totalSteps
    rw [hw]
    simp
  rw [if_neg h2]
  simp [hw]

/-- Witness for C9 at a concrete input: AniList enabled, watchlist stage
enabled, flag set. -/
theorem C9_sync_all_cancelled_witness :
    c9Settings.sync_watchlist = true ∧ enabledServices c9Settings ≠ [] ∧
    sync_all c9Settings true = (.cancelled "watchlist", 0) :=
  ⟨by decide, by decide,
    C9_sync_all_cancelled_before_watchlist_zero_calls c9Settings rfl (by decide)⟩

/-- Core of the amended C5: from attempt counter `a ≤ m`, with every response
an HTTP 200 carrying a GraphQL `errors` array, the retry loop issues
`m + 1 - a` further requests — the next with the current Authorization
setting, all later ones anonymous — and then returns `None`. -/
theorem anilistLoop_allErrors (refreshOk newTokenOk : Bool) (m : Nat) :
    ∀ (fuel attempt : Nat) (auth : Bool) (reqs : List Bool),
      attempt ≤ m → m + 1 - attempt ≤ fuel →
      anilistLoop always200Errors refreshOk newTokenOk m fuel attempt auth reqs =
        { outcome := .returnedNone
          requests := reqs ++ auth :: List.replicate (m - attempt) false } := by
  intro fuel
  induction fuel with
  | zero => intro attempt auth reqs ha hf; omega
  | succ fuel ih =>
      intro attempt auth reqs ha hf
      simp only [anilistLoop, always200Errors]
      rw [if_neg (by omega)]
      norm_num
      by_cases hm : m < attempt + 1
      · rw [if_pos hm]
        have : m - attempt = 0 := by omega
        simp [this]
      · rw [if_neg hm]
        rw [ih (attempt + 1) false (reqs ++ [auth]) (by omega) (by omega)]
        have : m - attempt = (m - (attempt + 1)) + 1 := by omega
        simp [this, List.replicate_succ]

/-- C5 amended: a 200 response whose body carries a top-level `errors` array
is treated as failure; the client strips the Authorization header and keeps
retrying anonymously until the retry budget `max_retries` is exhausted — so
with every response carrying `errors` it issues `m + 1` requests in total
(the first authenticated, the remaining `m` anonymous) and then returns
`None` — rather than giving up after a single anonymous retry. -/
theorem C5_amended_graphql_errors_anonymous_retries_until_budget
    (refreshOk newTokenOk : Bool) (m fuel : Nat) (hfuel : m + 1 ≤ fuel) :
    anilistQuery always200Errors true refreshOk newTokenOk m fuel =
      { outcome := .returnedNone
        requests := true :: List.replicate m false } := by
  unfold anilistQuery
  have h := anilistLoop_allErrors refreshOk newTokenOk m fuel 0 true []
    (Nat.zero_le m) (by omega)
  simpa using h

/-- Witness for the amended C5 with the source's default budget
`max_retries = 3`: four requests, the last three anonymous. -/
theorem C5_amended_witness :
    3 + 1 ≤ 10 ∧
    anilistQuery always200Errors true false false 3 10 =
      { outcome := .returnedNone
        requests := true :: List.replicate 3 false } :=
  ⟨by decide,
    C5_amended_graphql_errors_anonymous_retries_until_budget false false 3 10
      (by decide)⟩

/-- One mark call never lowers the stored progress. -/
theorem markEntry_progress_mono (e : LibEntry) (ep T now : Nat) :
    e.progress ≤ (markEntry e ep T now).progress := by
  simp only [markEntry]
  exact le_max_right ep e.progress

/-- Completion iff threshold, one step: provided a COMPLETED status always
came with `progress ≥ T` so far, then after one more mark call (passing
`total_episodes = T > 0`) the status is COMPLETED exactly when the new
progress reaches `T`. -/
theorem markEntry_completed_iff (e : LibEntry) (ep T now : Nat) (hT : 0 < T)
    (hinv : e.status = "COMPLETED" → T ≤ e.progress) :
    ((markEntry e ep T now).status = "COMPLETED" ↔
      T ≤ (markEntry e ep T now).progress) := by
  have hTne : T ≠ 0 := by omega
  simp only [markEntry]
  rw [if_pos hTne]
  by_cases h : T ≤ max ep e.progress
  · rw [if_pos ⟨h, hT⟩]
    simp [h]
  · rw [if_neg (fun hc => h hc.1)]
    constructor
    · intro hst
      by_cases hp : e.status = "PLANNING"
      · rw [if_pos hp] at hst
        exact absurd hst (by decide)
      · rw [if_neg hp] at hst
        exact absurd (le_trans (hinv hst) (le_max_right ep e.progress)) h
    · intro hle
      exact absurd hle h

/-- The progress values along a mark sequence form a non-decreasing chain. -/
theorem entryTrace_progress_chain (T now : Nat) :
    ∀ (eps : List Nat) (e : LibEntry),
      List.Chain' (· ≤ ·)
        ((e :: entryTrace e eps T now).map (fun x => x.progress)) := by
  intro eps
  induction eps with
  | nil => intro e; simp [entryTrace]
  | cons ep rest ih =>
      intro e
      simp only [entryTrace, List.map_cons]
      rw [List.chain'_cons]
      exact ⟨markEntry_progress_mono e ep T now, ih (markEntry e ep T now)⟩

/-- After every call of a mark sequence starting from a not-yet-COMPLETED
entry, the status reads COMPLETED exactly when the progress at that point has
reached the total. -/
theorem entryTrace_completed_flags (T now : Nat) (hT : 0 < T) :
    ∀ (eps : List Nat) (e : LibEntry),
      (e.status = "COMPLETED" → T ≤ e.progress) →
      (entryTrace e eps T now).map (fun x => decide (x.status = "COMPLETED")) =
        (entryTrace e eps T now).map (fun x => decide (T ≤ x.progress)) := by
  intro eps
  induction eps with
  | nil => intro e _; rfl
  | cons ep rest ih =>
      intro e hinv
      have hiff := markEntry_completed_iff e ep T now hT hinv
      simp only [entryTrace, List.map_cons, List.cons.injEq]
      exact ⟨decide_eq_decide.mpr hiff,
        ih (markEntry e ep T now) (fun h => hiff.mp h)⟩

/-- Marking an episode on a state whose library holds the entry rewrites the
anime map by updating that entry in place. -/
theorem mark_episode_watched_at_key (st : LibState) (anime_id source : String)
    (episode T now : Nat) (e : LibEntry)
    (h : dictGet st.library.anime (animeKey source anime_id) = some e) :
    (mark_episode_watched st anime_id source episode T now).library.anime =
      dictSet st.library.anime (animeKey source anime_id)
        (markEntry e episode T now) := by
  simp only [mark_episode_watched, h]

/-- Unfolding a mark sequence one call at a time. -/
theorem markSeq_cons (st : LibState) (anime_id source : String) (ep : Nat)
    (rest : List Nat) (T now : Nat) :
    markSeq st anime_id source (ep :: rest) T now =
      markSeq (mark_episode_watched st anime_id source ep T now)
        anime_id source rest T now := rfl

/-- After a whole mark sequence, the entry at the key is the fold of the
per-entry transition over the episode list. -/
theorem markSeq_at_key (anime_id source : String) (T now : Nat) :
    ∀ (eps : List Nat) (st : LibState) (e : LibEntry),
      dictGet st.library.anime (animeKey source anime_id) = some e →
      dictGet (markSeq st anime_id source eps T now).library.anime
        (animeKey source anime_id) = some (entryFold e eps T now) := by
  intro eps
  induction eps with
  | nil => intro st e h; simpa [markSeq, entryFold] using h
  | cons ep rest ih =>
      intro st e h
      rw [markSeq_cons]
      have h1 : dictGet (mark_episode_watched st anime_id source ep T now).library.anime
          (animeKey source anime_id) = some (markEntry e ep T now) := by
        rw [mark_episode_watched_at_key st anime_id source ep T now e h]
        exact dictGet_dictSet _ _ _
      exact ih (mark_episode_watched st anime_id source ep T now)
        (markEntry e ep T now) h1

/-- The fold over the episode list is the last state of the trace. -/
theorem entryFold_eq_trace_last (T now : Nat) :
    ∀ (eps : List Nat) (e : LibEntry),
      entryFold e eps T now = (entryTrace e eps T now).getLastD e := by
  intro eps
  induction eps with
  | nil => intro e; rfl
  | cons ep rest ih =>
      intro e
      rw [show entryFold e (ep :: rest) T now =
            entryFold (markEntry e ep T now) rest T now from rfl,
          show entryTrace e (ep :: rest) T now =
            markEntry e ep T now :: entryTrace (markEntry e ep T now) rest T now
            from rfl,
          List.getLastD_cons]
      exact ih (markEntry e ep T now)

/-- C6 amended: along any strictly increasing sequence of
`mark_episode_watched(ep)` calls on an entry that is not yet COMPLETED (with
`total_episodes = T > 0` passed each time), the progress values are
non-decreasing, and after each call the status reads COMPLETED exactly when
the progress at that point — `max(episode_so_far, initial progress)` — has
reached `T`; the transition does NOT depend on the count of distinct watched
episodes and involves no 95% threshold (both belong to the shadowed dead
definition).  The final conjunct ties the per-entry trace to the real state
transformer. -/
theorem C6_amended_progress_monotone_completion_at_threshold
    (st : LibState) (anime_id source : String) (eps : List Nat) (T now : Nat)
    (e₀ : LibEntry) (hT : 0 < T) (_hinc : List.Chain' (· < ·) eps)
    (hpres : dictGet st.library.anime (animeKey source anime_id) = some e₀)
    (hstat : e₀.status ≠ "COMPLETED") :
    List.Chain' (· ≤ ·)
      ((e₀ :: entryTrace e₀ eps T now).map (fun x => x.progress)) ∧
    (entryTrace e₀ eps T now).map (fun x => decide (x.status = "COMPLETED")) =
      (entryTrace e₀ eps T now).map (fun x => decide (T ≤ x.progress)) ∧
    dictGet (markSeq st anime_id source eps T now).library.anime
      (animeKey source anime_id) =
      some ((entryTrace e₀ eps T now).getLastD e₀) :=
  ⟨entryTrace_progress_chain T now eps e₀,
   entryTrace_completed_flags T now hT eps e₀ (fun h => absurd h hstat),
   by rw [markSeq_at_key anime_id source T now eps st e₀ hpres,
          entryFold_eq_trace_last T now eps e₀]⟩

/-- Witness for the amended C6 at a concrete input: marking episodes 5 then
12 (strictly increasing) of a 12-episode entry starting at WATCHING with zero
progress. -/
theorem C6_amended_witness :
    0 < 12 ∧ List.Chain' (· < ·) [5, 12] ∧
    dictGet c6Start.library.anime (animeKey "anilist" "9") = some c6Entry ∧
    c6Entry.status ≠ "COMPLETED" ∧
    (List.Chain' (· ≤ ·)
      ((c6Entry :: entryTrace c6Entry [5, 12] 12 50).map (fun x => x.progress)) ∧
    (entryTrace c6Entry [5, 12] 12 50).map
        (fun x => decide (x.status = "COMPLETED")) =
      (entryTrace c6Entry [5, 12] 12 50).map (fun x => decide (12 ≤ x.progress)) ∧
    dictGet (markSeq c6Start "9" "anilist" [5, 12] 12 50).library.anime
      (animeKey "anilist" "9") =
      some ((entryTrace c6Entry [5, 12] 12 50).getLastD c6Entry)) :=
  ⟨by decide, by simp, rfl, by decide,
    C6_amended_progress_monotone_completion_at_threshold c6Start "9" "anilist"
      [5, 12] 12 50 c6Entry (by decide) (by simp) rfl (by decide)⟩

end AnimeDB
